import Mathlib

/-!
Verification development for the image-resize pipeline in `src/index.js`.

The handler reacts to an object-store event: for each of six configured
image sizes it resolves a destination key from the (URL-decoded) source
key, fetches the source object, computes a crop/scale geometry from the
decoded image dimensions, renders the output, and stores it back under
the size-specific key.  Each JavaScript step is embedded as an executable
Lean definition:

* JavaScript strings are modelled as Lean `String`s (code-point lists);
  the embedding of `decodeURIComponent` is faithful for ASCII input: each
  `%XX` escape decodes to the code point `XX`, a `%` not followed by two
  hex digits is a decoding failure (JS throws `URIError`, modelled as
  `Option.none`).  Multi-byte UTF-8 escape sequences and their validation
  are outside the scope of every claim and are not modelled.
* JavaScript numbers appearing in the geometry computation are exact
  here: the decoded dimensions are integers, and the derived quantities
  (offsets obtained by halving, scaling factors obtained by division)
  are represented in `ℚ`.  All concrete values exercised below are
  exactly representable as IEEE doubles, so the rational model agrees
  with the JavaScript evaluation on them.
* The S3 collaborator is modelled as an association list of objects keyed
  by bucket and key; `getObject` is lookup, `putObject` prepends (which
  shadows older entries, matching overwrite semantics).  Store failures
  are injected through a `putErr` oracle so that error paths are
  expressible.  The imaging collaborator (`gm`) is an abstract pair of
  deterministic functions (dimension probe and render).
* `async.each` over the fixed six-element size list with `async.waterfall`
  inside is modelled as a sequential run of the six size jobs threading
  the store state; the aggregated error is the first failing job's error
  in list order.  The final Lambda callback is recorded in
  `HandlerOut.finalCallback`: `some msg` when the source calls
  `callback(null, msg)`, `none` when the source never invokes it.
-/

/-- Embedding of JavaScript `String.prototype.split` with a one-character
separator, on code-point lists.  `''.split(sep)` is `[""]`, adjacent
separators produce empty segments. -/
def jsSplitAux (sep : Char) : List Char → List (List Char)
  | [] => [[]]
  | c :: cs =>
    match jsSplitAux sep cs with
    | [] => [[]]
    | s :: rest => if c = sep then [] :: s :: rest else (c :: s) :: rest

/-- JavaScript `str.split(sep)` for a one-character separator. -/
def jsSplit (sep : Char) (s : String) : List String :=
  (jsSplitAux sep s.data).map String.mk

/-- JavaScript array indexing as it is consumed by the source: an
out-of-bounds access yields `undefined`, which the source immediately
feeds into string concatenation, where it renders as `"undefined"`
(src/index.js line 68). -/
def jsIndexStr (l : List String) (i : Nat) : String :=
  (l[i]?).getD "undefined"

/-- Embedding of `key.replace(/\+/g, " ")` (src/index.js line 66). -/
def jsReplacePlus (s : String) : String :=
  String.mk (s.data.map (fun c => if c = '+' then ' ' else c))

/-- Value of a hexadecimal digit, `none` for non-hex characters.  Code
point ranges: 48–57 are the digits, 65–70 are `A`–`F` (value 10–15, hence
the offset 55), 97–102 are `a`–`f` (offset 87). -/
def hexVal (c : Char) : Option Nat :=
  let n := c.toNat
  if 48 ≤ n ∧ n ≤ 57 then
    some (n - 48)
  else if 65 ≤ n ∧ n ≤ 70 then
    some (n - 55)
  else if 97 ≤ n ∧ n ≤ 102 then
    some (n - 87)
  else
    none

/-- Core of the `decodeURIComponent` embedding (ASCII-faithful, see the
file header): `%XX` with two hex digits becomes code point `XX`, a
malformed escape is a failure (`none`), every other character is kept. -/
def percentDecodeAux : List Char → Option (List Char)
  | [] => some []
  | c :: rest =>
    if c = '%' then
      match rest with
      | c1 :: c2 :: rest2 =>
        match hexVal c1, hexVal c2 with
        | some h1, some h2 =>
          (percentDecodeAux rest2).map (fun l => Char.ofNat (16 * h1 + h2) :: l)
        | _, _ => none
      | _ => none
    else
      (percentDecodeAux rest).map (fun l => c :: l)

/-- `decodeURIComponent` on strings (ASCII-faithful embedding). -/
def percentDecode (s : String) : Option String :=
  (percentDecodeAux s.data).map String.mk

/-- Source-key decoding of src/index.js line 66:
`decodeURIComponent(event.Records[0].s3.object.key.replace(/\+/g, " "))`.
The `+`-to-space replacement happens before percent decoding, exactly as
in the source. -/
def decodeKey (raw : String) : Option String :=
  percentDecode (jsReplacePlus raw)

/-- Characters after the last `.`, i.e. the capture of the source's
`srcKey.match(/\.([^.]*)$/)` (src/index.js line 82); `none` when the key
contains no dot (the regex does not match). -/
def extAux : List Char → Option (List Char)
  | [] => none
  | c :: cs =>
    match extAux cs with
    | some e => some e
    | none => if c = '.' then some cs else none

/-- File-extension-derived image type of a key (src/index.js lines 82–89):
the text after the last `.`, with no case folding. -/
def extOf (key : String) : Option String :=
  (extAux key.data).map String.mk

/-- `srcKey.split('/').reverse()` (src/index.js line 68). -/
def revSegs (key : String) : List String :=
  (jsSplit '/' key).reverse

/-- Destination-key computation of src/index.js line 68:
`imageSize.name + '/' + srcKey.split('/').reverse()[1] + '/' + srcKey.split('/').reverse()[0]`. -/
def dstKeyFor (name key : String) : String :=
  name ++ "/" ++ jsIndexStr (revSegs key) 1 ++ "/" ++ jsIndexStr (revSegs key) 0

/-- One configured size spec (src/index.js lines 11–48). -/
structure ImageSize where
  name : String
  width : Nat
  height : Nat
  crop : Bool
deriving DecidableEq

/-- The fixed `IMAGE_SIZES` configuration (src/index.js lines 11–48). -/
def IMAGE_SIZES : List ImageSize :=
  [ { name := "large", width := 640, height := 640, crop := false },
    { name := "large_square", width := 640, height := 640, crop := true },
    { name := "medium", width := 320, height := 320, crop := false },
    { name := "medium_square", width := 320, height := 320, crop := true },
    { name := "thumb", width := 120, height := 120, crop := false },
    { name := "thumb_square", width := 120, height := 120, crop := true } ]

/-- Geometry derived for one (source dimensions, size spec) pair: the crop
rectangle handed to `this.crop(cropWidth, cropHeight, xCrop, yCrop)` and
the dimensions handed to `.resize(width, height)` (src/index.js
lines 106–153).  Offsets and output dimensions are exact rationals, the
way the JavaScript arithmetic produces them (no rounding happens in the
source). -/
structure Plan where
  cropWidth : Nat
  cropHeight : Nat
  xCrop : ℚ
  yCrop : ℚ
  outWidth : ℚ
  outHeight : ℚ
deriving DecidableEq

/-- The geometry computation of src/index.js lines 106–149, verbatim:
crop defaults to the full frame; if `imageSize.crop` and the source is
strictly landscape the square side is the height and `xCrop` is the
exactly halved difference, otherwise the side is the width and `yCrop`
is the halved difference; the scaling factor is
`min(imageSize.width / size.width, imageSize.height / size.height)` —
the *source* dimensions — and the resize dimensions are the factor times
the source dimensions. -/
def plan (w h : Nat) (s : ImageSize) : Plan :=
  let crops : Nat × Nat × ℚ × ℚ :=
    if s.crop then
      if w > h then
        (h, h, ((w : ℚ) - (h : ℚ)) / 2, 0)
      else
        (w, w, 0, ((h : ℚ) - (w : ℚ)) / 2)
    else (w, h, 0, 0)
  let scalingFactor : ℚ := min ((s.width : ℚ) / (w : ℚ)) ((s.height : ℚ) / (h : ℚ))
  { cropWidth := crops.1, cropHeight := crops.2.1,
    xCrop := crops.2.2.1, yCrop := crops.2.2.2,
    outWidth := scalingFactor * (w : ℚ), outHeight := scalingFactor * (h : ℚ) }

/-- A stored object: body bytes and the `ContentType` that travels with it
(src/index.js lines 158 and 169 reuse the fetched object's content type). -/
structure S3Object where
  body : List Nat
  contentType : String
deriving DecidableEq

/-- The object store: an association list from (bucket, key) to object.
`putObject` prepends, so the most recent write shadows older ones. -/
def S3State : Type := List ((String × String) × S3Object)

/-- `s3.getObject` (src/index.js lines 100–103): the most recently stored
object under the bucket/key pair, `none` when the key does not exist
(the AWS call then fails and the waterfall aborts). -/
def lookupObj (st : S3State) (b k : String) : Option S3Object :=
  match st with
  | [] => none
  | e :: rest => if e.1.1 = b ∧ e.1.2 = k then some e.2 else lookupObj rest b k

/-- `s3.putObject` (src/index.js lines 165–171): record the object under
the bucket/key pair. -/
def putObj (st : S3State) (b k : String) (o : S3Object) : S3State :=
  ((b, k), o) :: st

/-- The imaging collaborator (`gm`): a deterministic dimension probe
(`gm(body).size`, src/index.js line 106) and a deterministic render
(`crop(...).resize(...).toBuffer(imageType, ...)`, lines 152–154) which
may fail (encode error). -/
structure ImageLib where
  size : List Nat → Nat × Nat
  render : List Nat → Plan → String → Except String (List Nat)

/-- External collaborators of one invocation: the imaging library and a
store-failure oracle (`putErr b k = some e` makes `s3.putObject` to that
bucket/key fail with message `e`). -/
structure World where
  lib : ImageLib
  putErr : String → String → Option String

instance {ε α : Type} [DecidableEq ε] [DecidableEq α] : DecidableEq (Except ε α) := fun a b =>
  match a, b with
  | Except.error x, Except.error y =>
    if h : x = y then isTrue (by rw [h]) else isFalse (by intro he; cases he; exact h rfl)
  | Except.error _, Except.ok _ => isFalse (by intro h; cases h)
  | Except.ok _, Except.error _ => isFalse (by intro h; cases h)
  | Except.ok x, Except.ok y =>
    if h : x = y then isTrue (by rw [h]) else isFalse (by intro he; cases he; exact h rfl)

/-- Observable result of one size job (one `async.each` iteration,
src/index.js lines 56–190): the resolved destination, the callback
outcome (`Except.error e` for `callback(err)`, `Except.ok msg` for
`callback(null, msg)`), and the traces of attempted fetches, renders and
stores. -/
structure SizeJobOut where
  name : String
  dstBucket : String
  dstKey : String
  outcome : Except String String
  fetched : List (String × String)
  rendered : List Plan
  stored : List ((String × String) × S3Object)
deriving DecidableEq

/-- One size job as a function of the fetched source object
(src/index.js lines 56–190): resolve the destination key, reject when it
equals the source key (line 76), reject keys without an extension
(line 83), skip with success for non-resizeable types (line 90),
otherwise run the download → transform → upload waterfall. -/
def sizeJobCore (w : World) (src : Option S3Object) (srcBucket srcKey : String)
    (s : ImageSize) : SizeJobOut :=
  let dstBucket := srcBucket
  let dstKey := dstKeyFor s.name srcKey
  let base : SizeJobOut :=
    { name := s.name, dstBucket := dstBucket, dstKey := dstKey,
      outcome := Except.ok "Success", fetched := [], rendered := [], stored := [] }
  if dstKey = srcKey then
    { base with outcome := Except.error "Source and destination buckets are the same." }
  else
    match extOf srcKey with
    | none => { base with outcome := Except.error "Could not determine the image type." }
    | some imageType =>
      if imageType ≠ "jpg" ∧ imageType ≠ "jpeg" ∧ imageType ≠ "png" then
        { base with
            outcome := Except.ok (imageType ++ " is not a resizeable image type. Nothing to do here.") }
      else
        match src with
        | none =>
          { base with outcome := Except.error "The specified key does not exist.",
                      fetched := [(srcBucket, srcKey)] }
        | some obj =>
          let dims := w.lib.size obj.body
          let p := plan dims.1 dims.2 s
          match w.lib.render obj.body p imageType with
          | Except.error e =>
            { base with outcome := Except.error e,
                        fetched := [(srcBucket, srcKey)], rendered := [p] }
          | Except.ok buffer =>
            match w.putErr dstBucket dstKey with
            | some e =>
              { base with outcome := Except.error e,
                          fetched := [(srcBucket, srcKey)], rendered := [p] }
            | none =>
              { base with
                  fetched := [(srcBucket, srcKey)], rendered := [p],
                  stored := [((dstBucket, dstKey), { body := buffer, contentType := obj.contentType })] }

/-- Apply the store writes a job performed to the object store. -/
def applyStores (st : S3State) (l : List ((String × String) × S3Object)) : S3State :=
  l.foldl (fun acc e => putObj acc e.1.1 e.1.2 e.2) st

/-- One size job acting on the store: fetch the source object, run the
job, apply its writes. -/
def sizeJob (w : World) (st : S3State) (b k : String) (s : ImageSize) :
    SizeJobOut × S3State :=
  let out := sizeJobCore w (lookupObj st b k) b k s
  (out, applyStores st out.stored)

/-- The `async.each` fan-out over the configured sizes (src/index.js
line 56), modelled as a sequential run threading the store state. -/
def runJobs (w : World) (st : S3State) (b k : String) :
    List ImageSize → List SizeJobOut × S3State
  | [] => ([], st)
  | s :: rest =>
    let r := sizeJob w st b k s
    let rs := runJobs w r.2 b k rest
    (r.1 :: rs.1, rs.2)

/-- Observable result of one handler invocation.  `crashed` is true when
`decodeURIComponent` throws (the invocation dies before any job runs);
`loggedError` is the aggregated `async.each` error, which the source only
logs (line 197); `finalCallback` is the value the source passes to the
Lambda callback — `none` when the callback is never invoked. -/
structure HandlerOut where
  crashed : Bool
  srcBucket : String
  srcKey : String
  jobs : List SizeJobOut
  loggedError : Option String
  finalCallback : Option String
deriving DecidableEq

/-- The first failing job's error, in job order — the error `async.each`
hands to its final callback (src/index.js line 192). -/
def firstJobError (jobs : List SizeJobOut) : Option String :=
  jobs.findSome? (fun j =>
    match j.outcome with
    | Except.error e => some e
    | Except.ok _ => none)

/-- The Lambda handler (src/index.js lines 53–202): truncate the event's
bucket name at its first `/` (line 63), URL-decode the event's object key
(line 66), run one job per configured size, and report: on any job error
the failure is only logged and the Lambda callback is never invoked
(lines 194–197); when every job succeeds the callback receives
`'All files have been processed successfully'` (line 199). -/
def handler (w : World) (st : S3State) (rawBucket rawKey : String) :
    HandlerOut × S3State :=
  let srcBucket := jsIndexStr (jsSplit '/' rawBucket) 0
  match decodeKey rawKey with
  | none =>
    ({ crashed := true, srcBucket := srcBucket, srcKey := "", jobs := [],
       loggedError := none, finalCallback := none }, st)
  | some srcKey =>
    let r := runJobs w st srcBucket srcKey IMAGE_SIZES
    let err := firstJobError r.1
    ({ crashed := false, srcBucket := srcBucket, srcKey := srcKey, jobs := r.1,
       loggedError := err,
       finalCallback :=
         match err with
         | some _ => none
         | none => some "All files have been processed successfully" }, r.2)

/-- A minimal imaging world: every image probes as 1×1 and renders to an
empty buffer; every store succeeds. -/
def unitWorld : World :=
  { lib := { size := fun _ => (1, 1), render := fun _ _ _ => Except.ok [] },
    putErr := fun _ _ => none }

/-- A store holding one JPEG object under the single-segment key
`file.jpg`. -/
def oneSegState : S3State :=
  [(("bucket", "file.jpg"), { body := [7], contentType := "image/jpeg" })]

/-- Scenario for the orchestration claims: a 50×80 JPEG source under
`original/abc/pic.jpg`. -/
def scenarioState : S3State :=
  [(("bucket", "original/abc/pic.jpg"), { body := [9], contentType := "image/jpeg" })]

/-- Scenario world in which exactly the store to `large/abc/pic.jpg`
fails (with message `StoreFailure`) and every other store succeeds. -/
def scenarioWorld : World :=
  { lib := { size := fun _ => (50, 80), render := fun _ _ _ => Except.ok [1, 2] },
    putErr := fun _ k => if k = "large/abc/pic.jpg" then some "StoreFailure" else none }

/-- Scenario world in which every store succeeds. -/
def scenarioOkWorld : World :=
  { lib := { size := fun _ => (50, 80), render := fun _ _ _ => Except.ok [1, 2] },
    putErr := fun _ _ => none }

example :
    (sizeJob unitWorld oneSegState "bucket" "file.jpg"
      { name := "thumb", width := 120, height := 120, crop := false }).1.outcome =
      Except.ok "Success" := by
  decide

example :
    (handler scenarioWorld scenarioState "bucket" "original/abc/pic.jpg").1.finalCallback = none := by
  decide

example :
    (handler scenarioOkWorld scenarioState "bucket" "original/abc/pic.jpg").1.finalCallback =
      some "All files have been processed successfully" := by
  decide

example :
    lookupObj (handler scenarioWorld scenarioState "bucket" "original/abc/pic.jpg").2
      "bucket" "medium/abc/pic.jpg" = some { body := [1, 2], contentType := "image/jpeg" } := by
  decide

/-- `split` never returns an empty array. -/
theorem jsSplitAux_ne_nil (sep : Char) (l : List Char) : jsSplitAux sep l ≠ [] := by
  cases l with
  | nil => simp [jsSplitAux]
  | cons c cs =>
    unfold jsSplitAux
    cases jsSplitAux sep cs with
    | nil => simp
    | cons s rest =>
      by_cases h : c = sep <;> simp [h]

/-- When `split` returns a single segment, that segment is the whole
input. -/
theorem jsSplitAux_singleton (sep : Char) :
    ∀ l m : List Char, jsSplitAux sep l = [m] → m = l := by
  intro l
  induction l with
  | nil => intro m h; simpa [jsSplitAux] using h.symm
  | cons c cs ih =>
    intro m h
    unfold jsSplitAux at h
    rcases hs : jsSplitAux sep cs with _ | ⟨s, rest⟩
    · exact absurd hs (jsSplitAux_ne_nil sep cs)
    · rw [hs] at h
      by_cases hc : c = sep
      · simp [hc] at h
      · simp only [if_neg hc] at h
        injection h with hm hrest
        rw [hrest] at hs
        rw [← hm, ih s hs]

/-- A string with a single `split('/')` segment splits into itself. -/
theorem jsSplit_singleton (key : String) (h : (jsSplit '/' key).length < 2) :
    jsSplit '/' key = [key] := by
  unfold jsSplit at h ⊢
  rcases hs : jsSplitAux '/' key.data with _ | ⟨m, rest⟩
  · exact absurd hs (jsSplitAux_ne_nil '/' key.data)
  · rw [hs] at h
    cases rest with
    | cons _ _ => simp at h; omega
    | nil =>
      have hm : m = key.data := jsSplitAux_singleton '/' key.data m hs
      rw [hm]
      rfl

/-- Looking up a key other than the one just written is unchanged. -/
theorem lookup_put_ne (st : S3State) (b2 k2 b k : String) (o : S3Object)
    (h : k2 ≠ k) : lookupObj (putObj st b2 k2 o) b k = lookupObj st b k := by
  show (if b2 = b ∧ k2 = k then some o else lookupObj st b k) = lookupObj st b k
  exact if_neg (fun hc => h hc.2)

/-- Applying writes that all avoid key `k` preserves lookups of `k`. -/
theorem lookup_applyStores (l : List ((String × String) × S3Object)) :
    ∀ st : S3State, ∀ b k : String, (∀ e ∈ l, e.1.2 ≠ k) →
      lookupObj (applyStores st l) b k = lookupObj st b k := by
  induction l with
  | nil => intro st b k _; rfl
  | cons e rest ih =>
    intro st b k h
    have hstep : applyStores st (e :: rest) =
        applyStores (putObj st e.1.1 e.1.2 e.2) rest := rfl
    rw [hstep, ih _ b k (fun x hx => h x (List.mem_cons_of_mem e hx)),
      lookup_put_ne st e.1.1 e.1.2 b k e.2 (h e (List.mem_cons_self e rest))]

/-- Structural facts about one size job, read off the source
(src/index.js lines 56–190): the reported name, destination bucket and
destination key; fetches only target the source object; stores only
target the destination key, which the guard at line 76 forces to differ
from the source key; and a destination equal to the source key makes the
job fail immediately. -/
theorem sizeJobCore_identical (w : World) (src : Option S3Object) (b k : String)
    (s : ImageSize) (hid : dstKeyFor s.name k = k) :
    sizeJobCore w src b k s =
      { name := s.name, dstBucket := b, dstKey := dstKeyFor s.name k,
        outcome := Except.error "Source and destination buckets are the same.",
        fetched := [], rendered := [], stored := [] } := by
  simp only [sizeJobCore, if_pos hid]

theorem sizeJobCore_noext (w : World) (src : Option S3Object) (b k : String)
    (s : ImageSize) (hid : dstKeyFor s.name k ≠ k) (hext : extOf k = none) :
    sizeJobCore w src b k s =
      { name := s.name, dstBucket := b, dstKey := dstKeyFor s.name k,
        outcome := Except.error "Could not determine the image type.",
        fetched := [], rendered := [], stored := [] } := by
  simp only [sizeJobCore, if_neg hid, hext]

theorem sizeJobCore_skip (w : World) (src : Option S3Object) (b k t : String)
    (s : ImageSize) (hid : dstKeyFor s.name k ≠ k) (hext : extOf k = some t)
    (ht : t ≠ "jpg" ∧ t ≠ "jpeg" ∧ t ≠ "png") :
    sizeJobCore w src b k s =
      { name := s.name, dstBucket := b, dstKey := dstKeyFor s.name k,
        outcome := Except.ok (t ++ " is not a resizeable image type. Nothing to do here."),
        fetched := [], rendered := [], stored := [] } := by
  simp only [sizeJobCore, if_neg hid, hext, if_pos ht]

theorem sizeJobCore_fetchfail (w : World) (b k t : String)
    (s : ImageSize) (hid : dstKeyFor s.name k ≠ k) (hext : extOf k = some t)
    (ht : ¬(t ≠ "jpg" ∧ t ≠ "jpeg" ∧ t ≠ "png")) :
    sizeJobCore w none b k s =
      { name := s.name, dstBucket := b, dstKey := dstKeyFor s.name k,
        outcome := Except.error "The specified key does not exist.",
        fetched := [(b, k)], rendered := [], stored := [] } := by
  simp only [sizeJobCore, if_neg hid, hext, if_neg ht]

theorem sizeJobCore_renderfail (w : World) (obj : S3Object) (b k t e : String)
    (s : ImageSize) (hid : dstKeyFor s.name k ≠ k) (hext : extOf k = some t)
    (ht : ¬(t ≠ "jpg" ∧ t ≠ "jpeg" ∧ t ≠ "png"))
    (hr : w.lib.render obj.body (plan (w.lib.size obj.body).1 (w.lib.size obj.body).2 s) t =
      Except.error e) :
    sizeJobCore w (some obj) b k s =
      { name := s.name, dstBucket := b, dstKey := dstKeyFor s.name k,
        outcome := Except.error e, fetched := [(b, k)],
        rendered := [plan (w.lib.size obj.body).1 (w.lib.size obj.body).2 s],
        stored := [] } := by
  simp only [sizeJobCore, if_neg hid, hext, if_neg ht, hr]

theorem sizeJobCore_putfail (w : World) (obj : S3Object) (b k t e : String)
    (buf : List Nat) (s : ImageSize)
    (hid : dstKeyFor s.name k ≠ k) (hext : extOf k = some t)
    (ht : ¬(t ≠ "jpg" ∧ t ≠ "jpeg" ∧ t ≠ "png"))
    (hr : w.lib.render obj.body (plan (w.lib.size obj.body).1 (w.lib.size obj.body).2 s) t =
      Except.ok buf)
    (hp : w.putErr b (dstKeyFor s.name k) = some e) :
    sizeJobCore w (some obj) b k s =
      { name := s.name, dstBucket := b, dstKey := dstKeyFor s.name k,
        outcome := Except.error e, fetched := [(b, k)],
        rendered := [plan (w.lib.size obj.body).1 (w.lib.size obj.body).2 s],
        stored := [] } := by
  simp only [sizeJobCore, if_neg hid, hext, if_neg ht, hr, hp]

theorem sizeJobCore_store (w : World) (obj : S3Object) (b k t : String)
    (buf : List Nat) (s : ImageSize)
    (hid : dstKeyFor s.name k ≠ k) (hext : extOf k = some t)
    (ht : ¬(t ≠ "jpg" ∧ t ≠ "jpeg" ∧ t ≠ "png"))
    (hr : w.lib.render obj.body (plan (w.lib.size obj.body).1 (w.lib.size obj.body).2 s) t =
      Except.ok buf)
    (hp : w.putErr b (dstKeyFor s.name k) = none) :
    sizeJobCore w (some obj) b k s =
      { name := s.name, dstBucket := b, dstKey := dstKeyFor s.name k,
        outcome := Except.ok "Success", fetched := [(b, k)],
        rendered := [plan (w.lib.size obj.body).1 (w.lib.size obj.body).2 s],
        stored := [((b, dstKeyFor s.name k),
          { body := buf, contentType := obj.contentType })] } := by
  simp only [sizeJobCore, if_neg hid, hext, if_neg ht, hr, hp]

theorem sizeJobCore_spec (w : World) (src : Option S3Object) (b k : String) (s : ImageSize) :
    (sizeJobCore w src b k s).name = s.name ∧
    (sizeJobCore w src b k s).dstBucket = b ∧
    (sizeJobCore w src b k s).dstKey = dstKeyFor s.name k ∧
    (∀ p ∈ (sizeJobCore w src b k s).fetched, p = (b, k)) ∧
    (∀ e ∈ (sizeJobCore w src b k s).stored,
      e.1.1 = b ∧ e.1.2 = dstKeyFor s.name k ∧ e.1.2 ≠ k) ∧
    (dstKeyFor s.name k = k →
      sizeJobCore w src b k s =
        { name := s.name, dstBucket := b, dstKey := dstKeyFor s.name k,
          outcome := Except.error "Source and destination buckets are the same.",
          fetched := [], rendered := [], stored := [] }) := by
  by_cases hid : dstKeyFor s.name k = k
  · rw [sizeJobCore_identical w src b k s hid]
    refine ⟨rfl, rfl, rfl, ?_, ?_, fun _ => rfl⟩ <;> · intro x hx; simp at hx
  · rcases hext : extOf k with _ | t
    · rw [sizeJobCore_noext w src b k s hid hext]
      refine ⟨rfl, rfl, rfl, ?_, ?_, fun hk => absurd hk hid⟩ <;> · intro x hx; simp at hx
    · by_cases ht : t ≠ "jpg" ∧ t ≠ "jpeg" ∧ t ≠ "png"
      · rw [sizeJobCore_skip w src b k t s hid hext ht]
        refine ⟨rfl, rfl, rfl, ?_, ?_, fun hk => absurd hk hid⟩ <;> · intro x hx; simp at hx
      · rcases src with _ | obj
        · rw [sizeJobCore_fetchfail w b k t s hid hext ht]
          refine ⟨rfl, rfl, rfl, ?_, ?_, fun hk => absurd hk hid⟩
          · intro x hx; simpa using hx
          · intro x hx; simp at hx
        · rcases hr : w.lib.render obj.body
            (plan (w.lib.size obj.body).1 (w.lib.size obj.body).2 s) t with e | buf
          · rw [sizeJobCore_renderfail w obj b k t e s hid hext ht hr]
            refine ⟨rfl, rfl, rfl, ?_, ?_, fun hk => absurd hk hid⟩
            · intro x hx; simpa using hx
            · intro x hx; simp at hx
          · rcases hp : w.putErr b (dstKeyFor s.name k) with _ | e
            · rw [sizeJobCore_store w obj b k t buf s hid hext ht hr hp]
              refine ⟨rfl, rfl, rfl, ?_, ?_, fun hk => absurd hk hid⟩
              · intro x hx; simpa using hx
              · intro x hx
                have hx2 : x = ((b, dstKeyFor s.name k),
                    { body := buf, contentType := obj.contentType }) := by simpa using hx
                subst hx2
                exact ⟨rfl, rfl, hid⟩
            · rw [sizeJobCore_putfail w obj b k t e buf s hid hext ht hr hp]
              refine ⟨rfl, rfl, rfl, ?_, ?_, fun hk => absurd hk hid⟩
              · intro x hx; simpa using hx
              · intro x hx; simp at hx

/-- Unfolding lemma for `sizeJob`. -/
theorem sizeJob_def (w : World) (st : S3State) (b k : String) (s : ImageSize) :
    sizeJob w st b k s =
      (sizeJobCore w (lookupObj st b k) b k s,
       applyStores st (sizeJobCore w (lookupObj st b k) b k s).stored) := rfl

/-- Unfolding lemma for `runJobs` on a cons cell. -/
theorem runJobs_cons (w : World) (st : S3State) (b k : String)
    (s : ImageSize) (rest : List ImageSize) :
    runJobs w st b k (s :: rest) =
      ((sizeJob w st b k s).1 :: (runJobs w (sizeJob w st b k s).2 b k rest).1,
       (runJobs w (sizeJob w st b k s).2 b k rest).2) := rfl

/-- Running the jobs never changes what a lookup of the source key
returns: every store targets a destination key different from the source
key. -/
theorem runJobs_lookup (w : World) (L : List ImageSize) :
    ∀ st : S3State, ∀ b k : String,
      lookupObj (runJobs w st b k L).2 b k = lookupObj st b k := by
  induction L with
  | nil => intro st b k; rfl
  | cons s rest ih =>
    intro st b k
    rw [runJobs_cons]
    dsimp only
    rw [ih, sizeJob_def]
    dsimp only
    exact lookup_applyStores _ st b k
      (fun e he => ((sizeJobCore_spec w _ b k s).2.2.2.2.1 e he).2.2)

/-- The per-job outputs depend on the initial store only through the
source object: stores that see the same source object produce the same
job outputs. -/
theorem runJobs_congr (w : World) (L : List ImageSize) :
    ∀ st st2 : S3State, ∀ b k : String,
      lookupObj st b k = lookupObj st2 b k →
      (runJobs w st b k L).1 = (runJobs w st2 b k L).1 := by
  induction L with
  | nil => intro st st2 b k _; rfl
  | cons s rest ih =>
    intro st st2 b k h
    rw [runJobs_cons, runJobs_cons]
    dsimp only
    rw [sizeJob_def, sizeJob_def]
    dsimp only
    rw [h]
    refine congrArg _ (ih _ _ b k ?_)
    rw [lookup_applyStores _ st b k
        (fun e he => ((sizeJobCore_spec w _ b k s).2.2.2.2.1 e he).2.2),
      lookup_applyStores _ st2 b k
        (fun e he => ((sizeJobCore_spec w _ b k s).2.2.2.2.1 e he).2.2)]
    exact h

/-- Every job produced by the fan-out satisfies the per-job structural
facts of `sizeJobCore_spec`. -/
theorem runJobs_mem (w : World) (L : List ImageSize) :
    ∀ st : S3State, ∀ b k : String, ∀ j ∈ (runJobs w st b k L).1,
      j.dstBucket = b ∧ j.dstKey = dstKeyFor j.name k ∧
      (∀ p ∈ j.fetched, p = (b, k)) ∧
      (∀ e ∈ j.stored, e.1.1 = b ∧ e.1.2 ≠ k) ∧
      (j.dstKey = k →
        j.outcome = Except.error "Source and destination buckets are the same." ∧
        j.fetched = [] ∧ j.stored = []) := by
  induction L with
  | nil => intro st b k j hj; simp [runJobs] at hj
  | cons s rest ih =>
    intro st b k j hj
    rw [runJobs_cons] at hj
    dsimp only at hj
    rcases List.mem_cons.mp hj with hj | hj
    · subst hj
      rw [sizeJob_def]
      dsimp only
      obtain ⟨h1, h2, h3, h4, h5, h6⟩ := sizeJobCore_spec w (lookupObj st b k) b k s
      refine ⟨h2, ?_, h4, fun e he => ⟨(h5 e he).1, (h5 e he).2.2⟩, ?_⟩
      · rw [h3, h1]
      · intro hk
        rw [h3] at hk
        rw [h6 hk]
        exact ⟨rfl, rfl, rfl⟩
    · exact ih _ b k j hj

/-- Claim C1 counterexample: with a 1920×1080 source and the 640×640 crop
spec, the crop rectangle is the 1080×1080 centered square, so the claimed
formula `min(maxWidth / cropWidth, maxHeight / cropHeight) * cropHeight`
gives output height 640; but the source computes the scaling factor from
the *pre-crop* dimensions (src/index.js lines 144–149), giving output
height 360. -/
theorem claim1_counterexample :
    (plan 1920 1080 { name := "large_square", width := 640, height := 640, crop := true }).cropWidth = 1080 ∧
    (plan 1920 1080 { name := "large_square", width := 640, height := 640, crop := true }).cropHeight = 1080 ∧
    (plan 1920 1080 { name := "large_square", width := 640, height := 640, crop := true }).outHeight = 360 ∧
    min ((640 : ℚ) / ((plan 1920 1080 { name := "large_square", width := 640, height := 640, crop := true }).cropWidth : ℚ))
        ((640 : ℚ) / ((plan 1920 1080 { name := "large_square", width := 640, height := 640, crop := true }).cropHeight : ℚ)) *
      ((plan 1920 1080 { name := "large_square", width := 640, height := 640, crop := true }).cropHeight : ℚ) = 640 ∧
    (plan 1920 1080 { name := "large_square", width := 640, height := 640, crop := true }).outHeight ≠
      min ((640 : ℚ) / ((plan 1920 1080 { name := "large_square", width := 640, height := 640, crop := true }).cropWidth : ℚ))
        ((640 : ℚ) / ((plan 1920 1080 { name := "large_square", width := 640, height := 640, crop := true }).cropHeight : ℚ)) *
      ((plan 1920 1080 { name := "large_square", width := 640, height := 640, crop := true }).cropHeight : ℚ) := by
  refine ⟨?_, ?_, ?_, ?_, ?_⟩ <;> norm_num [plan, min_def]

/-- Claim C1 (amended): the scaling factor is
`min(maxWidth / decodedWidth, maxHeight / decodedHeight)` computed from
the *pre-crop source* dimensions, and the output dimensions are that
factor applied to the pre-crop source dimensions — also when `crop` is
true, so the output keeps the source's aspect ratio, not the crop
rectangle's (src/index.js lines 143–149). -/
theorem claim1_scaling_uses_source_dims (w h : Nat) (s : ImageSize) :
    (plan w h s).outWidth =
      min ((s.width : ℚ) / (w : ℚ)) ((s.height : ℚ) / (h : ℚ)) * (w : ℚ) ∧
    (plan w h s).outHeight =
      min ((s.width : ℚ) / (w : ℚ)) ((s.height : ℚ) / (h : ℚ)) * (h : ℚ) ∧
    (plan w h s).outWidth * (h : ℚ) = (plan w h s).outHeight * (w : ℚ) := by
  refine ⟨rfl, rfl, ?_⟩
  show min ((s.width : ℚ) / (w : ℚ)) ((s.height : ℚ) / (h : ℚ)) * (w : ℚ) * (h : ℚ) =
    min ((s.width : ℚ) / (w : ℚ)) ((s.height : ℚ) / (h : ℚ)) * (h : ℚ) * (w : ℚ)
  ring

/-- Claim C5: with `crop` enabled and positive dimensions, the crop
rectangle is a centered square of side `min(decodedWidth, decodedHeight)`;
the landscape branch is taken exactly when the width strictly exceeds the
height (`cropY = 0`, `cropX` centered), otherwise the portrait branch is
taken (`cropX = 0`), so a square source keeps both offsets at 0
(src/index.js lines 114–141). -/
theorem plan_crop_landscape (w h : Nat) (s : ImageSize)
    (hc : s.crop = true) (hlt : w > h) :
    plan w h s =
      { cropWidth := h, cropHeight := h,
        xCrop := ((w : ℚ) - (h : ℚ)) / 2, yCrop := 0,
        outWidth := min ((s.width : ℚ) / (w : ℚ)) ((s.height : ℚ) / (h : ℚ)) * (w : ℚ),
        outHeight := min ((s.width : ℚ) / (w : ℚ)) ((s.height : ℚ) / (h : ℚ)) * (h : ℚ) } := by
  unfold plan
  rw [hc, if_pos hlt]
  rfl

theorem plan_crop_portrait (w h : Nat) (s : ImageSize)
    (hc : s.crop = true) (hnlt : ¬w > h) :
    plan w h s =
      { cropWidth := w, cropHeight := w,
        xCrop := 0, yCrop := ((h : ℚ) - (w : ℚ)) / 2,
        outWidth := min ((s.width : ℚ) / (w : ℚ)) ((s.height : ℚ) / (h : ℚ)) * (w : ℚ),
        outHeight := min ((s.width : ℚ) / (w : ℚ)) ((s.height : ℚ) / (h : ℚ)) * (h : ℚ) } := by
  unfold plan
  rw [hc, if_neg hnlt]
  rfl

theorem plan_nocrop (w h : Nat) (s : ImageSize) (hc : s.crop = false) :
    plan w h s =
      { cropWidth := w, cropHeight := h, xCrop := 0, yCrop := 0,
        outWidth := min ((s.width : ℚ) / (w : ℚ)) ((s.height : ℚ) / (h : ℚ)) * (w : ℚ),
        outHeight := min ((s.width : ℚ) / (w : ℚ)) ((s.height : ℚ) / (h : ℚ)) * (h : ℚ) } := by
  unfold plan
  rw [hc]
  rfl

theorem claim5_centered_square_crop (w h : Nat) (s : ImageSize)
    (hw : 0 < w) (hh : 0 < h) (hc : s.crop = true) :
    (plan w h s).cropWidth = min w h ∧ (plan w h s).cropHeight = min w h ∧
    (h < w → (plan w h s).yCrop = 0 ∧ (plan w h s).xCrop = ((w : ℚ) - (h : ℚ)) / 2) ∧
    (¬h < w → (plan w h s).xCrop = 0 ∧ (plan w h s).yCrop = ((h : ℚ) - (w : ℚ)) / 2) ∧
    (w = h → (plan w h s).xCrop = 0 ∧ (plan w h s).yCrop = 0) := by
  by_cases hlt : w > h
  · rw [plan_crop_landscape w h s hc hlt]
    exact ⟨(min_eq_right hlt.le).symm, (min_eq_right hlt.le).symm,
      fun _ => ⟨rfl, rfl⟩, fun hn => absurd hlt hn,
      fun heq => absurd hlt (by omega)⟩
  · rw [plan_crop_portrait w h s hc hlt]
    have hwh : w ≤ h := not_lt.mp hlt
    exact ⟨(min_eq_left hwh).symm, (min_eq_left hwh).symm,
      fun hn => absurd hn hlt, fun _ => ⟨rfl, rfl⟩,
      fun heq => ⟨rfl, by rw [heq]; norm_num⟩⟩

/-- Claim C5 witness: a 1000×1000 square source with a crop spec takes
the portrait branch, leaving both offsets at 0. -/
theorem claim5_witness :
    0 < 1000 ∧
    (plan 1000 1000 { name := "large_square", width := 640, height := 640, crop := true }).xCrop = 0 ∧
    (plan 1000 1000 { name := "large_square", width := 640, height := 640, crop := true }).yCrop = 0 :=
  ⟨by decide,
    (claim5_centered_square_crop 1000 1000
      { name := "large_square", width := 640, height := 640, crop := true }
      (by decide) (by decide) rfl).2.2.2.2 rfl⟩

/-- Claim C7 counterexample: for a 3×2 source with crop enabled, the
horizontal offset is the exact JavaScript quotient `(3 - 2) / 2 = 0.5` —
not an integer at all — while floored integer division would give 0. -/
theorem claim7_counterexample :
    (plan 3 2 { name := "medium_square", width := 320, height := 320, crop := true }).xCrop = 1 / 2 ∧
    (plan 3 2 { name := "medium_square", width := 320, height := 320, crop := true }).xCrop ≠
      (((3 - 2) / 2 : Nat) : ℚ) ∧
    (plan 3 2 { name := "medium_square", width := 320, height := 320, crop := true }).xCrop ∉
      Set.range ((↑·) : ℤ → ℚ) := by
  have hx : (plan 3 2 { name := "medium_square", width := 320, height := 320, crop := true }).xCrop = 1 / 2 := by
    norm_num [plan, min_def]
  refine ⟨hx, by norm_num [plan, min_def], ?_⟩
  rw [hx]
  rintro ⟨z, hz⟩
  have hz2 : (z : ℚ) = 1 / 2 := hz
  have h1 : (z : ℚ) * 2 = 1 := by rw [hz2]; norm_num
  have h2 : (z : ℤ) * 2 = 1 := by exact_mod_cast h1
  omega

/-- Claim C7 (amended): in the landscape branch the horizontal offset is
the *exact* quotient `(decodedWidth - decodedHeight) / 2` — JavaScript
`/` does not floor — so when the difference is odd the offset is a
half-integer, not an integer (src/index.js line 124). -/
theorem claim7_exact_half_offset (w h : Nat) (s : ImageSize)
    (hc : s.crop = true) (hlt : h < w) :
    (plan w h s).xCrop = ((w : ℚ) - (h : ℚ)) / 2 ∧
    (plan w h s).yCrop = 0 ∧
    (Odd (w - h) → (plan w h s).xCrop ∉ Set.range ((↑·) : ℤ → ℚ)) := by
  have hx : (plan w h s).xCrop = ((w : ℚ) - (h : ℚ)) / 2 := by
    unfold plan
    simp only [hc, if_true, if_pos hlt]
  have hy : (plan w h s).yCrop = 0 := by
    unfold plan
    simp only [hc, if_true, if_pos hlt]
  refine ⟨hx, hy, ?_⟩
  rintro hodd ⟨z, hz⟩
  rw [hx] at hz
  have h2 : (w : ℚ) - (h : ℚ) = (z : ℚ) * 2 := (div_eq_iff (by norm_num)).mp hz.symm
  have h3 : (w : ℤ) - (h : ℤ) = z * 2 := by exact_mod_cast h2
  have h4 : ((w - h : ℕ) : ℤ) = z * 2 := by
    rw [Nat.cast_sub hlt.le]
    exact h3
  rcases hodd with ⟨m, hm⟩
  rw [hm] at h4
  push_cast at h4
  omega

/-- Unfolding lemma for `handler` when the key decodes successfully. -/
theorem handler_decoded (w : World) (st : S3State) (rb rk key : String)
    (hdec : decodeKey rk = some key) :
    handler w st rb rk =
      ({ crashed := false, srcBucket := jsIndexStr (jsSplit '/' rb) 0, srcKey := key,
         jobs := (runJobs w st (jsIndexStr (jsSplit '/' rb) 0) key IMAGE_SIZES).1,
         loggedError :=
           firstJobError (runJobs w st (jsIndexStr (jsSplit '/' rb) 0) key IMAGE_SIZES).1,
         finalCallback :=
           match firstJobError (runJobs w st (jsIndexStr (jsSplit '/' rb) 0) key IMAGE_SIZES).1 with
           | some _ => none
           | none => some "All files have been processed successfully" },
       (runJobs w st (jsIndexStr (jsSplit '/' rb) 0) key IMAGE_SIZES).2) := by
  unfold handler
  rw [hdec]

/-- A logged first error comes from a job that failed with it. -/
theorem firstJobError_some_exists {jobs : List SizeJobOut} {e : String}
    (h : firstJobError jobs = some e) :
    ∃ j ∈ jobs, j.outcome = Except.error e := by
  obtain ⟨j, hj, hjo⟩ := List.exists_of_findSome?_eq_some h
  refine ⟨j, hj, ?_⟩
  have hjo2 : (match j.outcome with
    | Except.error e2 => some e2
    | Except.ok _ => none) = some e := hjo
  rcases ho : j.outcome with e2 | m
  · rw [ho] at hjo2
    simp at hjo2
    rw [hjo2]
  · rw [ho] at hjo2
    simp at hjo2

/-- No logged error means every job called back with success. -/
theorem firstJobError_none_ok {jobs : List SizeJobOut}
    (h : firstJobError jobs = none) :
    ∀ j ∈ jobs, ∃ m, j.outcome = Except.ok m := by
  intro j hj
  have hjo : (match j.outcome with
    | Except.error e2 => some e2
    | Except.ok _ => none) = none := List.findSome?_eq_none_iff.mp h j hj
  rcases ho : j.outcome with e2 | m
  · rw [ho] at hjo
    simp at hjo
  · exact ⟨m, rfl⟩

/-- Claim C3 counterexample: the single-segment key `file.jpg` does not
make the job fail; no key-shape validation exists in the source.  The
job resolves the destination to `thumb/undefined/file.jpg` (the JS
`undefined` stringified into the key), fetches the source, and stores a
rendition there, finishing with `Success`. -/
theorem claim3_counterexample :
    (sizeJob unitWorld oneSegState "bucket" "file.jpg"
        { name := "thumb", width := 120, height := 120, crop := false }).1.outcome =
      Except.ok "Success" ∧
    (sizeJob unitWorld oneSegState "bucket" "file.jpg"
        { name := "thumb", width := 120, height := 120, crop := false }).1.dstKey =
      "thumb/undefined/file.jpg" ∧
    (sizeJob unitWorld oneSegState "bucket" "file.jpg"
        { name := "thumb", width := 120, height := 120, crop := false }).1.fetched =
      [("bucket", "file.jpg")] ∧
    (sizeJob unitWorld oneSegState "bucket" "file.jpg"
        { name := "thumb", width := 120, height := 120, crop := false }).1.stored ≠ [] := by
  refine ⟨by decide, by decide, by decide, by decide⟩

/-- Claim C3 (amended): a source key with fewer than 2 slash-separated
segments is *not* rejected — there is no `InvalidKeyShape` failure in the
source.  The out-of-range `reverse()[1]` access yields `undefined`,
which string concatenation renders as the literal segment `undefined`,
so the destination key is `sizeName + "/" + "undefined" + "/" + key` and
the job proceeds normally (src/index.js line 68). -/
theorem claim3_undefined_not_failure (name key : String)
    (h : (jsSplit '/' key).length < 2) :
    dstKeyFor name key = name ++ "/" ++ "undefined" ++ "/" ++ key ∧
    dstKeyFor "thumb" "file.jpg" = "thumb/undefined/file.jpg" := by
  constructor
  · have hs : jsSplit '/' key = [key] := jsSplit_singleton key h
    unfold dstKeyFor revSegs jsIndexStr
    rw [hs]
    rfl
  · decide

/-- Claim C3 witness: a concrete slash-free key resolved under the
`medium` size. -/
theorem claim3_witness :
    (jsSplit '/' "noslash.jpg").length < 2 ∧
    dstKeyFor "medium" "noslash.jpg" = "medium" ++ "/" ++ "undefined" ++ "/" ++ "noslash.jpg" :=
  ⟨by decide, (claim3_undefined_not_failure "medium" "noslash.jpg" (by decide)).1⟩

/-- Claim C4: the handler's source key is the raw event key with `+`
replaced by space and then percent-decoded; every job's destination
bucket equals the (truncated) source bucket; every job's destination key
is `sizeName + "/" + secondToLastSegment + "/" + lastSegment` of the
decoded key (shown both through `dstKeyFor` and through explicit
positional indexing when the key has at least 2 segments); and a job
whose destination key equals the source key fails before fetching or
storing anything (src/index.js lines 62–79). -/
theorem claim4_destination_resolution (w : World) (st : S3State) (rb rk key : String)
    (hdec : decodeKey rk = some key) :
    (handler w st rb rk).1.srcKey = key ∧
    percentDecode (jsReplacePlus rk) = some key ∧
    (∀ j ∈ (handler w st rb rk).1.jobs,
      j.dstBucket = (handler w st rb rk).1.srcBucket ∧
      j.dstKey = dstKeyFor j.name key ∧
      (j.dstKey = key →
        j.outcome = Except.error "Source and destination buckets are the same." ∧
        j.fetched = [] ∧ j.stored = [])) ∧
    (2 ≤ (jsSplit '/' key).length →
      ∀ name : String,
        dstKeyFor name key =
          name ++ "/" ++ jsIndexStr (jsSplit '/' key) ((jsSplit '/' key).length - 2) ++ "/" ++
            jsIndexStr (jsSplit '/' key) ((jsSplit '/' key).length - 1)) ∧
    dstKeyFor "thumb" "original/abc123/DarthVader.jpg" = "thumb/abc123/DarthVader.jpg" := by
  rw [handler_decoded w st rb rk key hdec]
  refine ⟨rfl, hdec, ?_, ?_, by decide⟩
  · intro j hj
    obtain ⟨h1, h2, _, _, h5⟩ := runJobs_mem w IMAGE_SIZES st _ key j hj
    exact ⟨h1, h2, h5⟩
  · intro hlen name
    unfold dstKeyFor revSegs jsIndexStr
    rw [@List.getElem?_reverse _ (jsSplit '/' key) 1 (by omega),
      @List.getElem?_reverse _ (jsSplit '/' key) 0 (by omega)]
    have e1 : (jsSplit '/' key).length - 1 - 1 = (jsSplit '/' key).length - 2 := by omega
    have e0 : (jsSplit '/' key).length - 1 - 0 = (jsSplit '/' key).length - 1 := by omega
    rw [e1, e0]

/-- Claim C4 witness: the `DarthVader.jpg` example key decodes to itself
and is the handler's source key. -/
theorem claim4_witness :
    decodeKey "original/abc123/DarthVader.jpg" = some "original/abc123/DarthVader.jpg" ∧
    (handler scenarioOkWorld scenarioState "bucket" "original/abc123/DarthVader.jpg").1.srcKey =
      "original/abc123/DarthVader.jpg" :=
  ⟨by decide,
    (claim4_destination_resolution scenarioOkWorld scenarioState "bucket"
      "original/abc123/DarthVader.jpg" "original/abc123/DarthVader.jpg" (by decide)).1⟩

/-- Claim C6 counterexample: for the source key `large/x/y.gif` (type
`gif`, not resizeable) the job for the `large` size does *not*
short-circuit to a skip: its computed destination key equals the source
key, and that check runs first (src/index.js line 76), so the job fails
with the identical-key error. -/
theorem claim6_counterexample :
    extOf "large/x/y.gif" = some "gif" ∧
    ("gif" ≠ "jpg" ∧ "gif" ≠ "jpeg" ∧ "gif" ≠ "png") ∧
    (sizeJob unitWorld [] "bucket" "large/x/y.gif"
        { name := "large", width := 640, height := 640, crop := false }).1.outcome =
      Except.error "Source and destination buckets are the same." ∧
    (sizeJob unitWorld [] "bucket" "large/x/y.gif"
        { name := "large", width := 640, height := 640, crop := false }).1.outcome ≠
      Except.ok ("gif" ++ " is not a resizeable image type. Nothing to do here.") := by
  refine ⟨by decide, by decide, by decide, by decide⟩

/-- Claim C6 (amended): a source key whose extension-derived type is not
`jpg`, `jpeg` or `png` makes the job call back with the
`... is not a resizeable image type. Nothing to do here.` success
message, with no fetch, render or store and an unchanged object store —
*provided* the computed destination key differs from the source key;
otherwise the identical-key failure at src/index.js line 76 fires first
(src/index.js lines 82–94). -/
theorem claim6_unsupported_type_skips (w : World) (st : S3State) (b k t : String)
    (s : ImageSize) (hext : extOf k = some t)
    (h1 : t ≠ "jpg") (h2 : t ≠ "jpeg") (h3 : t ≠ "png")
    (hne : dstKeyFor s.name k ≠ k) :
    sizeJob w st b k s =
      ({ name := s.name, dstBucket := b, dstKey := dstKeyFor s.name k,
         outcome := Except.ok (t ++ " is not a resizeable image type. Nothing to do here."),
         fetched := [], rendered := [], stored := [] }, st) := by
  rw [sizeJob_def, sizeJobCore_skip w (lookupObj st b k) b k t s hne hext ⟨h1, h2, h3⟩]
  rfl

/-- Claim C6 witness: a `.gif` key whose destination differs from the
source skips with success and touches nothing. -/
theorem claim6_witness :
    extOf "original/a/p.gif" = some "gif" ∧
    dstKeyFor "medium" "original/a/p.gif" ≠ "original/a/p.gif" ∧
    sizeJob unitWorld [] "bucket" "original/a/p.gif"
        { name := "medium", width := 320, height := 320, crop := false } =
      ({ name := "medium", dstBucket := "bucket", dstKey := dstKeyFor "medium" "original/a/p.gif",
         outcome := Except.ok ("gif" ++ " is not a resizeable image type. Nothing to do here."),
         fetched := [], rendered := [], stored := [] }, []) :=
  ⟨by decide, by decide,
    claim6_unsupported_type_skips unitWorld [] "bucket" "original/a/p.gif" "gif"
      { name := "medium", width := 320, height := 320, crop := false }
      (by decide) (by decide) (by decide) (by decide) (by decide)⟩

/-- Claim C9 counterexample: for the extensionless source key
`large/x/y`, the job for the `large` size fails with the identical-key
error, not with `Could not determine the image type.`, because the
destination-key check at src/index.js line 76 runs before the type
inference at line 82. -/
theorem claim9_counterexample :
    extOf "large/x/y" = none ∧
    (sizeJob unitWorld [] "bucket" "large/x/y"
        { name := "large", width := 640, height := 640, crop := false }).1.outcome =
      Except.error "Source and destination buckets are the same." ∧
    (sizeJob unitWorld [] "bucket" "large/x/y"
        { name := "large", width := 640, height := 640, crop := false }).1.outcome ≠
      Except.error "Could not determine the image type." := by
  refine ⟨by decide, by decide, by decide⟩

/-- Claim C9 (amended): a source key containing no `.` makes the job
fail with `Could not determine the image type.` — an error, not a skip —
with no fetch, render or store and an unchanged object store, *provided*
the computed destination key differs from the source key; otherwise the
identical-key failure fires first (src/index.js lines 76–86). -/
theorem claim9_no_extension_is_error (w : World) (st : S3State) (b k : String)
    (s : ImageSize) (hnone : extOf k = none) (hne : dstKeyFor s.name k ≠ k) :
    sizeJob w st b k s =
      ({ name := s.name, dstBucket := b, dstKey := dstKeyFor s.name k,
         outcome := Except.error "Could not determine the image type.",
         fetched := [], rendered := [], stored := [] }, st) := by
  rw [sizeJob_def, sizeJobCore_noext w (lookupObj st b k) b k s hne hnone]
  rfl

/-- Claim C9 witness: a concrete extensionless key under the `thumb`
size fails with the type error and performs nothing. -/
theorem claim9_witness :
    extOf "original/xyz/noext" = none ∧
    dstKeyFor "thumb" "original/xyz/noext" ≠ "original/xyz/noext" ∧
    sizeJob unitWorld [] "bucket" "original/xyz/noext"
        { name := "thumb", width := 120, height := 120, crop := false } =
      ({ name := "thumb", dstBucket := "bucket", dstKey := dstKeyFor "thumb" "original/xyz/noext",
         outcome := Except.error "Could not determine the image type.",
         fetched := [], rendered := [], stored := [] }, []) :=
  ⟨by decide, by decide,
    claim9_no_extension_is_error unitWorld [] "bucket" "original/xyz/noext"
      { name := "thumb", width := 120, height := 120, crop := false }
      (by decide) (by decide)⟩

/-- Claim C7 witness: a 1921×1080 source with crop enabled has offset
841/2, which is not an integer. -/
theorem claim7_witness :
    (1080 < 1921 ∧ Odd (1921 - 1080)) ∧
    (plan 1921 1080 { name := "large_square", width := 640, height := 640, crop := true }).xCrop =
      ((1921 : ℚ) - (1080 : ℚ)) / 2 ∧
    (plan 1921 1080 { name := "large_square", width := 640, height := 640, crop := true }).xCrop ∉
      Set.range ((↑·) : ℤ → ℚ) :=
  ⟨⟨by decide, ⟨420, by norm_num⟩⟩,
    (claim7_exact_half_offset 1921 1080
      { name := "large_square", width := 640, height := 640, crop := true } rfl (by decide)).1,
    (claim7_exact_half_offset 1921 1080
      { name := "large_square", width := 640, height := 640, crop := true } rfl (by decide)).2.2
      ⟨420, by norm_num⟩⟩

/-- Unfolding equation for `jsSplitAux` on a cons cell. -/
theorem jsSplitAux_cons (sep c : Char) (cs : List Char) :
    jsSplitAux sep (c :: cs) =
      match jsSplitAux sep cs with
      | [] => [[]]
      | s :: rest => if c = sep then [] :: s :: rest else (c :: s) :: rest := rfl

/-- Splitting a string that starts with a separator-free prefix followed
by the separator yields that prefix as the first segment. -/
theorem jsSplitAux_append (sep : Char) :
    ∀ pre post : List Char, sep ∉ pre →
      jsSplitAux sep (pre ++ sep :: post) = pre :: jsSplitAux sep post := by
  intro pre
  induction pre with
  | nil =>
    intro post _
    show jsSplitAux sep (sep :: post) = [] :: jsSplitAux sep post
    rcases hs : jsSplitAux sep post with _ | ⟨s, rest⟩
    · exact absurd hs (jsSplitAux_ne_nil sep post)
    · rw [jsSplitAux_cons, hs]
      show (if sep = sep then [] :: s :: rest else (sep :: s) :: rest) = [] :: s :: rest
      rw [if_pos rfl]
  | cons c cs ih =>
    intro post h
    have hc : c ≠ sep := fun he => h (he ▸ List.mem_cons_self c cs)
    show jsSplitAux sep (c :: (cs ++ sep :: post)) = (c :: cs) :: jsSplitAux sep post
    rw [jsSplitAux_cons, ih post (fun hm => h (List.mem_cons_of_mem c hm))]
    show (if c = sep then [] :: cs :: jsSplitAux sep post
        else (c :: cs) :: jsSplitAux sep post) = (c :: cs) :: jsSplitAux sep post
    rw [if_neg hc]

/-- The source bucket taken by the handler is the substring of the raw
bucket name before its first `/` (src/index.js line 63). -/
theorem jsSplit_head_prefix (pre post : String) (h : ('/' : Char) ∉ pre.data) :
    jsIndexStr (jsSplit '/' (pre ++ "/" ++ post)) 0 = pre := by
  unfold jsSplit jsIndexStr
  have hdata : (pre ++ "/" ++ post).data = pre.data ++ '/' :: post.data := by
    show (pre.data ++ '/' :: []) ++ post.data = pre.data ++ '/' :: post.data
    rw [List.append_assoc]
    rfl
  rw [hdata, jsSplitAux_append '/' pre.data post.data h]
  simp only [List.map_cons, List.getElem?_cons_zero, Option.getD_some]

/-- Claim C10: the handler truncates the event's bucket name at its first
`/` and uses the truncated name both as the fetch bucket and as the store
bucket of every size job (src/index.js lines 62–67, 100–102 and
165–166). -/
theorem claim10_bucket_truncated (w : World) (st : S3State) (rb rk : String) :
    (handler w st rb rk).1.srcBucket = jsIndexStr (jsSplit '/' rb) 0 ∧
    (∀ pre post : String, rb = pre ++ "/" ++ post → ('/' : Char) ∉ pre.data →
      (handler w st rb rk).1.srcBucket = pre) ∧
    (∀ j ∈ (handler w st rb rk).1.jobs,
      (∀ p ∈ j.fetched, p.1 = (handler w st rb rk).1.srcBucket) ∧
      (∀ e ∈ j.stored, e.1.1 = (handler w st rb rk).1.srcBucket) ∧
      j.dstBucket = (handler w st rb rk).1.srcBucket) := by
  have hsb : (handler w st rb rk).1.srcBucket = jsIndexStr (jsSplit '/' rb) 0 := by
    rcases hdec : decodeKey rk with _ | key
    · unfold handler
      rw [hdec]
    · rw [handler_decoded w st rb rk key hdec]
  refine ⟨hsb, ?_, ?_⟩
  · intro pre post hpre hnosl
    rw [hsb, hpre]
    exact jsSplit_head_prefix pre post hnosl
  · intro j hj
    rcases hdec : decodeKey rk with _ | key
    · rw [show (handler w st rb rk).1.jobs = [] from by unfold handler; rw [hdec]] at hj
      simp at hj
    · rw [handler_decoded w st rb rk key hdec] at hj ⊢
      obtain ⟨h1, _, h3, h4, _⟩ := runJobs_mem w IMAGE_SIZES st _ key j hj
      exact ⟨fun p hp => by rw [h3 p hp], fun e he => (h4 e he).1, h1⟩

/-- Claim C10 witness: a raw bucket name containing a slash is truncated
to its first segment. -/
theorem claim10_witness :
    (handler scenarioOkWorld scenarioState "bucket/extra" "original/abc/pic.jpg").1.srcBucket =
      jsIndexStr (jsSplit '/' "bucket/extra") 0 ∧
    (handler scenarioOkWorld scenarioState "bucket/extra" "original/abc/pic.jpg").1.srcBucket =
      "bucket" :=
  ⟨(claim10_bucket_truncated scenarioOkWorld scenarioState "bucket/extra" "original/abc/pic.jpg").1,
    (claim10_bucket_truncated scenarioOkWorld scenarioState "bucket/extra"
      "original/abc/pic.jpg").2.1 "bucket" "extra" rfl (by decide)⟩

/-- Claim C2 counterexample: in a run where exactly one job's store fails
(with message `StoreFailure`), the handler logs the failure but never
invokes the Lambda callback — no `Error` result carrying the failure's
message is reported to the invoking environment (src/index.js
lines 192–201: the error branch only calls `console.error`). -/
theorem claim2_counterexample :
    (handler scenarioWorld scenarioState "bucket" "original/abc/pic.jpg").1.loggedError =
      some "StoreFailure" ∧
    (handler scenarioWorld scenarioState "bucket" "original/abc/pic.jpg").1.finalCallback =
      none := by
  refine ⟨by decide, by decide⟩

/-- Claim C2 (amended): when the key decodes (no crash), the Lambda
callback receives `'All files have been processed successfully'` exactly
when no job failed; when some job fails, the first failing job's message
is only logged and the callback is never invoked — no result at all is
reported to the invoking environment — while the other jobs still run
and their successful stores still occur (shown on the six configured
sizes with exactly one failing store: the other five renditions are
present in the final store state and the failing one is not)
(src/index.js lines 192–201). -/
theorem claim2_error_only_logged (w : World) (st : S3State) (rb rk : String)
    (h : (handler w st rb rk).1.crashed = false) :
    ((handler w st rb rk).1.finalCallback =
        some "All files have been processed successfully" ↔
      (handler w st rb rk).1.loggedError = none) ∧
    (∀ e : String, (handler w st rb rk).1.loggedError = some e →
      (handler w st rb rk).1.finalCallback = none ∧
      ∃ j ∈ (handler w st rb rk).1.jobs, j.outcome = Except.error e) ∧
    ((handler w st rb rk).1.loggedError = none →
      ∀ j ∈ (handler w st rb rk).1.jobs, ∃ m, j.outcome = Except.ok m) ∧
    (handler scenarioWorld scenarioState "bucket" "original/abc/pic.jpg").1.loggedError =
      some "StoreFailure" ∧
    (handler scenarioWorld scenarioState "bucket" "original/abc/pic.jpg").1.finalCallback =
      none ∧
    lookupObj (handler scenarioWorld scenarioState "bucket" "original/abc/pic.jpg").2
        "bucket" "large_square/abc/pic.jpg" =
      some { body := [1, 2], contentType := "image/jpeg" } ∧
    lookupObj (handler scenarioWorld scenarioState "bucket" "original/abc/pic.jpg").2
        "bucket" "medium/abc/pic.jpg" =
      some { body := [1, 2], contentType := "image/jpeg" } ∧
    lookupObj (handler scenarioWorld scenarioState "bucket" "original/abc/pic.jpg").2
        "bucket" "medium_square/abc/pic.jpg" =
      some { body := [1, 2], contentType := "image/jpeg" } ∧
    lookupObj (handler scenarioWorld scenarioState "bucket" "original/abc/pic.jpg").2
        "bucket" "thumb/abc/pic.jpg" =
      some { body := [1, 2], contentType := "image/jpeg" } ∧
    lookupObj (handler scenarioWorld scenarioState "bucket" "original/abc/pic.jpg").2
        "bucket" "thumb_square/abc/pic.jpg" =
      some { body := [1, 2], contentType := "image/jpeg" } ∧
    lookupObj (handler scenarioWorld scenarioState "bucket" "original/abc/pic.jpg").2
        "bucket" "large/abc/pic.jpg" = none := by
  rcases hdec : decodeKey rk with _ | key
  · exfalso
    rw [show (handler w st rb rk).1.crashed = true from by unfold handler; rw [hdec]] at h
    exact Bool.noConfusion h
  · rw [handler_decoded w st rb rk key hdec]
    dsimp only
    refine ⟨?_, ?_, ?_, by decide, by decide, by decide, by decide, by decide, by decide,
      by decide, by decide⟩
    · rcases herr : firstJobError
        (runJobs w st (jsIndexStr (jsSplit '/' rb) 0) key IMAGE_SIZES).1 with _ | e0
      · simp
      · simp
    · intro e he
      rcases herr : firstJobError
          (runJobs w st (jsIndexStr (jsSplit '/' rb) 0) key IMAGE_SIZES).1 with _ | e0
      · rw [herr] at he
        simp at he
      · rw [herr] at he
        have he0 : e0 = e := by simpa using he
        subst he0
        exact ⟨rfl, firstJobError_some_exists herr⟩
    · intro hnone
      exact firstJobError_none_ok hnone

/-- Claim C2 witness: in the all-stores-succeed scenario the handler does
not crash and the success callback fires exactly because no error was
logged. -/
theorem claim2_witness :
    (handler scenarioOkWorld scenarioState "bucket" "original/abc/pic.jpg").1.crashed = false ∧
    ((handler scenarioOkWorld scenarioState "bucket" "original/abc/pic.jpg").1.finalCallback =
        some "All files have been processed successfully" ↔
      (handler scenarioOkWorld scenarioState "bucket" "original/abc/pic.jpg").1.loggedError =
        none) :=
  ⟨by decide,
    (claim2_error_only_logged scenarioOkWorld scenarioState "bucket" "original/abc/pic.jpg"
      (by decide)).1⟩

/-- Claim C8: rerunning the handler on the state produced by a first run,
with the same world, event bucket and key, produces an identical
observable outcome — same job results (including the stored bodies and
destination keys), same logged error, same final callback.  The pipeline
is a deterministic function of its input, and the stores it performs
never overwrite the source object it reads (every destination key
differs from the source key), so a rerun sees the same source bytes
(src/index.js lines 53–202). -/
theorem claim8_idempotent_rerun (w : World) (st : S3State) (rb rk : String) :
    (handler w (handler w st rb rk).2 rb rk).1 = (handler w st rb rk).1 := by
  rcases hdec : decodeKey rk with _ | key
  · unfold handler
    rw [hdec]
  · rw [handler_decoded w st rb rk key hdec]
    rw [handler_decoded w (runJobs w st (jsIndexStr (jsSplit '/' rb) 0) key IMAGE_SIZES).2
      rb rk key hdec]
    have hjobs :
        (runJobs w (runJobs w st (jsIndexStr (jsSplit '/' rb) 0) key IMAGE_SIZES).2
            (jsIndexStr (jsSplit '/' rb) 0) key IMAGE_SIZES).1 =
          (runJobs w st (jsIndexStr (jsSplit '/' rb) 0) key IMAGE_SIZES).1 :=
      runJobs_congr w IMAGE_SIZES _ _ _ _
        (runJobs_lookup w IMAGE_SIZES st (jsIndexStr (jsSplit '/' rb) 0) key)
    rw [hjobs]

/-- Claim C8 witness: rerunning the all-success scenario reproduces the
first run's observable outcome. -/
theorem claim8_witness :
    (handler scenarioOkWorld
        (handler scenarioOkWorld scenarioState "bucket" "original/abc/pic.jpg").2
        "bucket" "original/abc/pic.jpg").1 =
      (handler scenarioOkWorld scenarioState "bucket" "original/abc/pic.jpg").1 :=
  claim8_idempotent_rerun scenarioOkWorld scenarioState "bucket" "original/abc/pic.jpg"
